import Mathlib

/-!
# Verification of the Lern-Guide AI session-persistence subsystem

Shallow embedding of the client-side session persistence and restoration
mechanism of the Lern-Guide AI repository:

* `utils.ts` — the binary codec `fileToBase64` / `base64ToFile` (base64
  encoding and decoding of file byte content);
* the main `App` component — the session load effect, the save effect with
  quota handling, `restoreSessionState`, `handleRestoreSession`,
  `handleStartNewSession`, `handleReset`, `handleImportSession`, and the
  content-producing handlers `handleGenerateGuide` / `handleSolvePractice`;
* `types.ts` — the data model (`SavedSession`, `GeneratedContent`,
  `SerializableFile`, enumerations).

Bytes are modelled as `Nat` with explicit `< 256` bounds.  Browser files are
modelled as records carrying their byte content.  `localStorage` is a single
`Option String` slot (the one fixed key `lernGuideSession`).  The platform's
`JSON.parse` is kept abstract as a parameter `parse : String → Option Json`;
JS runtime values produced by parsing are modelled by the `Json` type
together with JS-faithful property access and truthiness.
-/

/-! ## Binary codec (`utils.ts`)

`fileToBase64` reads a file via `FileReader.readAsDataURL` and strips the
data-URL prefix, yielding the standard (padded) base64 encoding of the file's
bytes.  `base64ToFile` applies the platform's `atob` and rebuilds a `File`
from the resulting byte values.  The base64 primitive itself (`btoa`/`atob`
semantics, RFC 4648 with `=` padding, forgiving decode) is a platform
builtin; it is embedded here directly at the byte level.
-/

/-- The standard base64 alphabet, in index order. -/
def base64Alphabet : List Char :=
  "ABCDEFGHIJKLMNOPQRSTUVWXYZabcdefghijklmnopqrstuvwxyz0123456789+/".data

/-- Character of a sextet value (`0 ≤ n < 64`). -/
def sextetChar (n : Nat) : Char := base64Alphabet.getD n 'A'

/-- Scan of the alphabet for a character, returning its sextet value. -/
def charSextetAux (c : Char) : List Char → Nat → Option Nat
  | [], _ => none
  | a :: as, i => if a = c then some i else charSextetAux c as (i + 1)

/-- Sextet value of a base64 character; `none` for characters outside the
alphabet (this is where `atob` throws `InvalidCharacterError`). -/
def charSextet (c : Char) : Option Nat := charSextetAux c base64Alphabet 0

/-- Bytes to sextets: groups of 3 bytes become 4 sextets; a tail of 1 or 2
bytes becomes 2 or 3 sextets carrying the leftover bits. -/
def bytesToSextets : List Nat → List Nat
  | [] => []
  | [a] => [a / 4, a % 4 * 16]
  | [a, b] => [a / 4, a % 4 * 16 + b / 16, b % 16 * 4]
  | a :: b :: c :: rest =>
      a / 4 :: (a % 4 * 16 + b / 16) :: (b % 16 * 4 + c / 64) :: c % 64 ::
        bytesToSextets rest

/-- Sextets to bytes: groups of 4 sextets become 3 bytes; a tail of 2 or 3
sextets becomes 1 or 2 bytes (trailing bits are discarded, as in `atob`).
A tail of exactly 1 sextet cannot be reached through `decodeBase64Chars`
(its length check rejects inputs of length `≡ 1 (mod 4)`). -/
def sextetsToBytes : List Nat → List Nat
  | [] => []
  | [_] => []
  | [s1, s2] => [s1 * 4 + s2 / 16]
  | [s1, s2, s3] => [s1 * 4 + s2 / 16, s2 % 16 * 16 + s3 / 4]
  | s1 :: s2 :: s3 :: s4 :: rest =>
      (s1 * 4 + s2 / 16) :: (s2 % 16 * 16 + s3 / 4) :: (s3 % 4 * 64 + s4) ::
        sextetsToBytes rest

/-- Padding characters appended by the encoder, determined by the byte count
modulo 3. -/
def padChars : Nat → List Char
  | 1 => ['=', '=']
  | 2 => ['=']
  | _ => []

/-- Standard padded base64 encoding of a byte list (the string produced by
`readAsDataURL` after the data-URL prefix is stripped). -/
def encodeBytes (bs : List Nat) : List Char :=
  (bytesToSextets bs).map sextetChar ++ padChars (bs.length % 3)

/-- Removal of up to two trailing `=` characters (step of the forgiving
base64 decode used by `atob`). -/
def dropPad (cs : List Char) : List Char :=
  match cs.reverse with
  | '=' :: '=' :: rest => rest.reverse
  | '=' :: rest => rest.reverse
  | _ => cs

/-- `Option`-valued map over a list, failing as soon as one element fails
(the behavior of a thrown exception inside a JS `Array.prototype.map`). -/
def traverseOption (f : α → Option β) : List α → Option (List β)
  | [] => some []
  | a :: as => (f a).bind fun b => (traverseOption f as).map fun bs => b :: bs

/-- `atob` composed with per-character `charCodeAt`: forgiving base64 decode
of a character list into byte values.  `none` models the `DOMException`
`atob` throws on malformed input (wrong length or characters outside the
alphabet). -/
def decodeBase64Chars (cs : List Char) : Option (List Nat) :=
  let cs' := if cs.length % 4 = 0 then dropPad cs else cs
  if cs'.length % 4 = 1 then none
  else
    match traverseOption charSextet cs' with
    | none => none
    | some ss => some (sextetsToBytes ss)

/-- In-memory browser `File` handle: metadata plus byte content. -/
structure JsFile where
  name : String
  type : String
  lastModified : Int
  data : List Nat
deriving DecidableEq, Repr

/-- `utils.ts` `fileToBase64`: base64 text form of the file's bytes (the
data-URL prefix produced by `readAsDataURL` is split away by the source). -/
def fileToBase64 (file : JsFile) : String := ⟨encodeBytes file.data⟩

/-- `utils.ts` `base64ToFile`: `atob` the base64 text, turn each character
code into a byte, and rebuild a `File` with the given name and MIME type.
`none` models the exception `atob` throws on malformed base64.  The `File`
constructor stamps the current wall-clock time as `lastModified`; that clock
value is passed in as `now`. -/
def base64ToFile (base64 : String) (filename : String) (mimeType : String)
    (now : Int) : Option JsFile :=
  (decodeBase64Chars base64.data).map fun bytes =>
    { name := filename, type := mimeType, lastModified := now, data := bytes }

/-! ### Codec round-trip lemmas -/

theorem charSextet_sextetChar : ∀ n, n < 64 → charSextet (sextetChar n) = some n := by
  decide

theorem sextetChar_ne_pad : ∀ n, n < 64 → sextetChar n ≠ '=' := by
  decide

theorem bytesToSextets_lt (bs : List Nat) (h : ∀ b ∈ bs, b < 256) :
    ∀ s ∈ bytesToSextets bs, s < 64 := by
  induction bs using bytesToSextets.induct with
  | case1 => simp [bytesToSextets]
  | case2 a =>
      have ha := h a (by simp)
      intro s hs
      simp only [bytesToSextets, List.mem_cons, List.not_mem_nil, or_false] at hs
      rcases hs with rfl | rfl <;> omega
  | case3 a b =>
      have ha := h a (by simp)
      have hb := h b (by simp)
      intro s hs
      simp only [bytesToSextets, List.mem_cons, List.not_mem_nil, or_false] at hs
      rcases hs with rfl | rfl | rfl <;> omega
  | case4 a b c rest ih =>
      have ha := h a (by simp)
      have hb := h b (by simp)
      have hc := h c (by simp)
      have hrest : ∀ x ∈ rest, x < 256 := fun x hx => h x (by simp [hx])
      intro s hs
      simp only [bytesToSextets, List.mem_cons] at hs
      rcases hs with rfl | rfl | rfl | rfl | hs
      · omega
      · omega
      · omega
      · omega
      · exact ih hrest s hs

theorem sextetsToBytes_bytesToSextets (bs : List Nat) (h : ∀ b ∈ bs, b < 256) :
    sextetsToBytes (bytesToSextets bs) = bs := by
  induction bs using bytesToSextets.induct with
  | case1 => rfl
  | case2 a =>
      have ha := h a (by simp)
      simp only [bytesToSextets, sextetsToBytes, List.cons.injEq, and_true]
      omega
  | case3 a b =>
      have ha := h a (by simp)
      have hb := h b (by simp)
      simp only [bytesToSextets, sextetsToBytes, List.cons.injEq, and_true]
      omega
  | case4 a b c rest ih =>
      have ha := h a (by simp)
      have hb := h b (by simp)
      have hc := h c (by simp)
      have hrest : ∀ x ∈ rest, x < 256 := fun x hx => h x (by simp [hx])
      simp only [bytesToSextets, sextetsToBytes, List.cons.injEq]
      refine ⟨by omega, by omega, by omega, ih hrest⟩

theorem bytesToSextets_length_mod (bs : List Nat) :
    (bytesToSextets bs).length % 4 ≠ 1 := by
  induction bs using bytesToSextets.induct with
  | case1 => simp [bytesToSextets]
  | case2 a => simp [bytesToSextets]
  | case3 a b => simp [bytesToSextets]
  | case4 a b c rest ih =>
      simp only [bytesToSextets, List.length_cons] at ih ⊢
      omega

theorem encodeBytes_length_mod (bs : List Nat) :
    ((bytesToSextets bs).length + (padChars (bs.length % 3)).length) % 4 = 0 := by
  induction bs using bytesToSextets.induct with
  | case1 => simp [bytesToSextets, padChars]
  | case2 a => simp [bytesToSextets, padChars]
  | case3 a b => simp [bytesToSextets, padChars]
  | case4 a b c rest ih =>
      simp only [bytesToSextets, List.length_cons]
      rw [show (rest.length + 1 + 1 + 1) % 3 = rest.length % 3 by omega]
      omega

theorem dropPad_append_pad (l : List Char) (m : Nat) (h : ∀ c ∈ l, c ≠ '=') :
    dropPad (l ++ padChars m) = l := by
  have hrev : ∀ c ∈ l.reverse, c ≠ '=' := fun c hc => h c (List.mem_reverse.mp hc)
  match m with
  | 1 =>
      show dropPad (l ++ ['=', '=']) = l
      unfold dropPad
      rw [show (l ++ ['=', '=']).reverse = '=' :: '=' :: l.reverse by simp]
      simp
  | 2 =>
      show dropPad (l ++ ['=']) = l
      unfold dropPad
      rw [show (l ++ ['=']).reverse = '=' :: l.reverse by simp]
      match hl : l.reverse with
      | [] =>
          have hl0 : l = [] := by simpa using congrArg List.reverse hl
          subst hl0
          rfl
      | c :: cs =>
          have hc : c ≠ '=' := hrev c (by rw [hl]; simp)
          split
          · rename_i rest heq
            rw [List.cons.injEq, List.cons.injEq] at heq
            exact absurd heq.2.1 hc
          · rename_i rest heq
            rw [List.cons.injEq] at heq
            rw [← heq.2, ← hl, List.reverse_reverse]
          · rename_i hne1 hne2
            exact absurd rfl (hne2 (c :: cs))
  | 0 =>
      show dropPad (l ++ []) = l
      rw [List.append_nil]
      unfold dropPad
      match hl : l.reverse with
      | [] => rfl
      | c :: cs =>
          have hc : c ≠ '=' := hrev c (by rw [hl]; simp)
          split
          · rename_i rest heq
            rw [List.cons.injEq] at heq
            exact absurd heq.1 hc
          · rename_i rest heq
            rw [List.cons.injEq] at heq
            exact absurd heq.1 hc
          · rfl
  | n + 3 =>
      show dropPad (l ++ padChars (n + 3)) = l
      have hpad : padChars (n + 3) = [] := by unfold padChars; split <;> first | omega | rfl
      rw [hpad, List.append_nil]
      unfold dropPad
      match hl : l.reverse with
      | [] => rfl
      | c :: cs =>
          have hc : c ≠ '=' := hrev c (by rw [hl]; simp)
          split
          · rename_i rest heq
            rw [List.cons.injEq] at heq
            exact absurd heq.1 hc
          · rename_i rest heq
            rw [List.cons.injEq] at heq
            exact absurd heq.1 hc
          · rfl

theorem traverseOption_charSextet_map (ss : List Nat) (h : ∀ s ∈ ss, s < 64) :
    traverseOption charSextet (ss.map sextetChar) = some ss := by
  induction ss with
  | nil => rfl
  | cons s ss ih =>
      have hs := h s (by simp)
      have hss : ∀ x ∈ ss, x < 64 := fun x hx => h x (by simp [hx])
      simp only [List.map_cons, traverseOption, charSextet_sextetChar s hs, ih hss]
      rfl

theorem decodeBase64Chars_encodeBytes (bs : List Nat) (h : ∀ b ∈ bs, b < 256) :
    decodeBase64Chars (encodeBytes bs) = some bs := by
  have hne : ∀ c ∈ (bytesToSextets bs).map sextetChar, c ≠ '=' := by
    intro c hc
    rcases List.mem_map.mp hc with ⟨s, hs, rfl⟩
    exact sextetChar_ne_pad s (bytesToSextets_lt bs h s hs)
  have hlen : (encodeBytes bs).length % 4 = 0 := by
    have := encodeBytes_length_mod bs
    simpa [encodeBytes] using this
  have hdrop : dropPad (encodeBytes bs) = (bytesToSextets bs).map sextetChar :=
    dropPad_append_pad _ _ hne
  unfold decodeBase64Chars
  rw [if_pos hlen, hdrop]
  rw [if_neg (by
    simp only [List.length_map]
    exact bytesToSextets_length_mod bs)]
  rw [traverseOption_charSextet_map _ (bytesToSextets_lt bs h)]
  show some (sextetsToBytes (bytesToSextets bs)) = some bs
  rw [sextetsToBytes_bytesToSextets bs h]

/-- C1: for every binary content `b` (a list of bytes) and every
filename/MIME pair, decoding the base64 string produced by encoding `b`
(`base64ToFile` applied to the result of `fileToBase64`) yields a file
handle whose byte content equals `b` exactly, and decoding then re-encoding
the base64 data is idempotent (re-encoding the decoded file reproduces the
same base64 string). -/
theorem fileToBase64_base64ToFile_roundtrip
    (bytes : List Nat) (name mimeType : String) (lm now : Int)
    (h : ∀ b ∈ bytes, b < 256) :
    base64ToFile (fileToBase64 ⟨name, mimeType, lm, bytes⟩) name mimeType now
        = some ⟨name, mimeType, now, bytes⟩
    ∧ (base64ToFile (fileToBase64 ⟨name, mimeType, lm, bytes⟩) name mimeType now).map
          fileToBase64
        = some (fileToBase64 ⟨name, mimeType, lm, bytes⟩) := by
  have hdec : decodeBase64Chars (fileToBase64 ⟨name, mimeType, lm, bytes⟩).data
      = some bytes := by
    show decodeBase64Chars (encodeBytes bytes) = some bytes
    exact decodeBase64Chars_encodeBytes bytes h
  constructor
  · rw [base64ToFile, hdec]
    rfl
  · rw [base64ToFile, hdec]
    rfl

/-- Witness for C1 at the concrete content `[0, 77, 255, 10]` with name
`a.pdf` and MIME type `application/pdf`. -/
theorem fileToBase64_base64ToFile_roundtrip_witness :
    (∀ b ∈ [0, 77, 255, 10], b < 256)
    ∧ (base64ToFile (fileToBase64 ⟨"a.pdf", "application/pdf", 5, [0, 77, 255, 10]⟩)
          "a.pdf" "application/pdf" 9
        = some ⟨"a.pdf", "application/pdf", 9, [0, 77, 255, 10]⟩
      ∧ (base64ToFile (fileToBase64 ⟨"a.pdf", "application/pdf", 5, [0, 77, 255, 10]⟩)
            "a.pdf" "application/pdf" 9).map fileToBase64
        = some (fileToBase64 ⟨"a.pdf", "application/pdf", 5, [0, 77, 255, 10]⟩)) :=
  ⟨by decide,
   fileToBase64_base64ToFile_roundtrip [0, 77, 255, 10] "a.pdf" "application/pdf" 5 9
     (by decide)⟩

/-! ## Data model (`types.ts` and the `App` component)

Straightforward transcriptions of the TypeScript interfaces and string-union
types.  TypeScript `T | null` and optional (`?`) fields are both modelled as
`Option`; the `null`/`undefined` distinction is irrelevant to every claim
(no code path in the subsystem distinguishes them).
-/

/-- `types.ts` `FollowUp`. -/
structure FollowUp where
  question : String
  answer : String
deriving DecidableEq, Repr

/-- `types.ts` `GuideStep`. -/
structure GuideStep where
  title : String
  content : String
  followUps : Option (List FollowUp) := none
  suggestedFollowUps : Option (List String) := none
deriving DecidableEq, Repr

/-- `types.ts` `SolvedQuestion`. -/
structure SolvedQuestion where
  title : String
  answer : String
  explanation : String
  reference : String
  followUps : Option (List FollowUp) := none
deriving DecidableEq, Repr

/-- `types.ts` `KeyConcept`. -/
structure KeyConcept where
  term : String
  definition : String
deriving DecidableEq, Repr

/-- `types.ts` `Flashcard`. -/
structure Flashcard where
  question : String
  answer : String
deriving DecidableEq, Repr

/-- `types.ts` `GradedAnswer`. -/
structure GradedAnswer where
  questionText : String
  userAnswer : String
  feedback : String
  suggestedAnswer : String
  isCorrect : Bool
deriving DecidableEq, Repr

/-- `types.ts` `ExamQuestion`. -/
structure ExamQuestion where
  id : String
  questionText : String
deriving DecidableEq, Repr

/-- `types.ts` `DetailLevel`. -/
inductive DetailLevel
  | overview
  | standard
  | detailed
  | eli5
deriving DecidableEq, Repr

/-- `types.ts` `ModelName`. -/
inductive ModelName
  | gemini25flash
  | gemini25pro
deriving DecidableEq, Repr

/-- `types.ts` `ScriptAction`. -/
inductive ScriptAction
  | guide
  | concepts
  | flashcards
  | exam
deriving DecidableEq, Repr

/-- `types.ts` `SolutionMode`. -/
inductive SolutionMode
  | direct
  | guided
deriving DecidableEq, Repr

/-- `types.ts` `SimulationModeType`. -/
inductive SimulationModeType
  | coop
  | vs
deriving DecidableEq, Repr

/-- `App`'s local `activeMode` union `'solution' | 'simulation'`. -/
inductive ActiveMode
  | solution
  | simulation
deriving DecidableEq, Repr

/-- `types.ts` `NotificationType`. -/
inductive NotificationType
  | success
  | warning
deriving DecidableEq, Repr

/-- The `AppNotification` interface of the `App` component. -/
structure AppNotification where
  message : String
  type : NotificationType
deriving DecidableEq, Repr

/-- `types.ts` `GeneratedContent`: each artifact kind present or absent. -/
structure GeneratedContent where
  guide : Option (List GuideStep) := none
  solvedQuestions : Option (List SolvedQuestion) := none
  keyConcepts : Option (List KeyConcept) := none
  flashcards : Option (List Flashcard) := none
  examResults : Option (List GradedAnswer) := none
deriving DecidableEq, Repr

/-- The `AppState` string union of the `App` component: the top-level screen. -/
inductive AppState
  | initial
  | loading
  | resultsDashboard
  | error
  | guided
  | exam
  | simulation
deriving DecidableEq, Repr

/-- The `SerializableFile` interface: one uploaded document in portable form
(`data` is the base64 text of its bytes). -/
structure SerializableFile where
  name : String
  type : String
  lastModified : Int
  data : String
deriving DecidableEq, Repr

/-- The `SavedSession` interface: the single persisted unit of truth (note:
it has no field for exam questions or extracted practice questions). -/
structure SavedSession where
  appState : AppState
  scriptFiles : List SerializableFile
  practiceFile : Option SerializableFile
  generatedContent : GeneratedContent
  openStepIndex : Option Int
  useStrictContext : Bool
  detailLevel : DetailLevel
  model : ModelName
  selectedScriptAction : ScriptAction
deriving DecidableEq, Repr

/-- The `App` component's `useState` hooks, gathered into one record.
`progress` keeps only the explicitly set values (the interval-driven random
increments of `startLoadingProcess` are timing behavior outside the claims
and are modelled as leaving the explicitly set value). -/
structure AppModel where
  generatedContent : GeneratedContent
  practiceQuestions : List ExamQuestion
  allPracticeQuestions : List ExamQuestion
  isSolvingNextBatch : Bool
  examQuestions : List ExamQuestion
  error : Option String
  appState : AppState
  scriptFiles : List JsFile
  practiceFile : Option JsFile
  openStepIndex : Option Int
  progress : Nat
  loadingMessage : Option String
  useStrictContext : Bool
  detailLevel : DetailLevel
  model : ModelName
  activeMode : ActiveMode
  solutionMode : SolutionMode
  simulationMode : SimulationModeType
  selectedScriptAction : ScriptAction
  isExportingPdf : Bool
  urlInput : String
  isUrlLoading : Bool
  savedSessionData : Option SavedSession
  showSessionPrompt : Bool
  notification : Option AppNotification
deriving DecidableEq, Repr

/-- The initial values of all `useState` hooks of `App`. -/
def initialAppModel : AppModel where
  generatedContent := {}
  practiceQuestions := []
  allPracticeQuestions := []
  isSolvingNextBatch := false
  examQuestions := []
  error := none
  appState := .initial
  scriptFiles := []
  practiceFile := none
  openStepIndex := none
  progress := 0
  loadingMessage := none
  useStrictContext := true
  detailLevel := .standard
  model := .gemini25flash
  activeMode := .solution
  solutionMode := .direct
  simulationMode := .coop
  selectedScriptAction := .guide
  isExportingPdf := false
  urlInput := ""
  isUrlLoading := false
  savedSessionData := none
  showSessionPrompt := false
  notification := none

/-- The app state together with the `localStorage` slot under the fixed key
`lernGuideSession` (`none` = key absent).  Only the save effect ever writes
the slot; the lifecycle functions below merely clear it, so no
string-serialization of snapshots is ever constructed by them. -/
structure AppWorld where
  app : AppModel
  stored : Option String
deriving DecidableEq, Repr

/-! ## JSON values and JS dynamic semantics

`JSON.parse` is a platform builtin; its possible outputs are modelled by
`Json`, and the parser itself stays abstract (`parse : String → Option Json`,
`none` = `SyntaxError` thrown).  Property access and truthiness follow
JavaScript: reading a property of `null` throws a `TypeError`; reading an
absent property yields `undefined` (here `Option.none`); `undefined`,
`null`, `false`, `0`, and `""` are falsy, every array and object is truthy.
`JSON.parse` output never contains `undefined`, and its objects have unique
keys (a duplicate key keeps only the last occurrence), so a plain
first-match lookup is faithful for parser output.
-/

/-- A JSON value, as produced by the platform's `JSON.parse`. -/
inductive Json
  | null
  | bool (b : Bool)
  | num (n : Int)
  | str (s : String)
  | arr (elems : List Json)
  | obj (fields : List (String × Json))

/-- Property lookup on a JSON value that is known not to be `null`:
`undefined` (`none`) for absent fields and for non-object values. -/
def jsGet (j : Json) (key : String) : Option Json :=
  match j with
  | .obj fields => fields.lookup key
  | _ => none

/-- JS property access: throws `TypeError` on `null`, otherwise `jsGet`. -/
def jsAccess (j : Json) (key : String) : Except String (Option Json) :=
  match j with
  | .null => .error "TypeError"
  | _ => .ok (jsGet j key)

/-- JS truthiness of a possibly-`undefined` JSON value. -/
def jsTruthy : Option Json → Bool
  | none => false
  | some .null => false
  | some (.bool b) => b
  | some (.num n) => n != 0
  | some (.str s) => s != ""
  | some (.arr _) => true
  | some (.obj _) => true

/-- Whether a possibly-`undefined` JSON value is exactly the string `s`
(the JS strict comparison `v === s` / its negation `v !== s`). -/
def jsIsStr (v : Option Json) (s : String) : Bool :=
  match v with
  | some (.str t) => t == s
  | _ => false

/-! ### Reading a parsed JSON value as a `SavedSession`

The source casts the parsed value directly
(`const sessionData: SavedSession = JSON.parse(result)`); these readers make
that typing explicit.  A value outside their domain is one the TypeScript
cast lets through with a shape other than `SavedSession`; what the dynamic
code then does with it is JS-specific behavior that no claim quantifies
over. -/

/-- Read a JSON string. -/
def readString : Json → Option String
  | .str s => some s
  | _ => none

/-- Read a JSON number as an integer. -/
def readInt : Json → Option Int
  | .num n => some n
  | _ => none

/-- Read a JSON boolean. -/
def readBool : Json → Option Bool
  | .bool b => some b
  | _ => none

/-- Read a JSON array elementwise. -/
def readArr (f : Json → Option α) : Json → Option (List α)
  | .arr xs => traverseOption f xs
  | _ => none

/-- The `AppState` denoted by a string, if any. -/
def appStateOfString : String → Option AppState
  | "initial" => some .initial
  | "loading" => some .loading
  | "resultsDashboard" => some .resultsDashboard
  | "error" => some .error
  | "guided" => some .guided
  | "exam" => some .exam
  | "simulation" => some .simulation
  | _ => none

/-- The `DetailLevel` denoted by a string, if any. -/
def detailLevelOfString : String → Option DetailLevel
  | "overview" => some .overview
  | "standard" => some .standard
  | "detailed" => some .detailed
  | "eli5" => some .eli5
  | _ => none

/-- The `ModelName` denoted by a string, if any. -/
def modelNameOfString : String → Option ModelName
  | "gemini-2.5-flash" => some .gemini25flash
  | "gemini-2.5-pro" => some .gemini25pro
  | _ => none

/-- The `ScriptAction` denoted by a string, if any. -/
def scriptActionOfString : String → Option ScriptAction
  | "guide" => some .guide
  | "concepts" => some .concepts
  | "flashcards" => some .flashcards
  | "exam" => some .exam
  | _ => none

/-- Read a required field of a JSON object. -/
def readField (j : Json) (key : String) (f : Json → Option α) : Option α :=
  match jsGet j key with
  | none => none
  | some v => f v

/-- Read an optional field: absent or `null` gives `none`, a present value
must read successfully. -/
def readOptField (j : Json) (key : String) (f : Json → Option α) :
    Option (Option α) :=
  match jsGet j key with
  | none => some none
  | some .null => some none
  | some v => (f v).map some

/-- Read a `FollowUp`. -/
def readFollowUp (j : Json) : Option FollowUp := do
  let q ← readField j "question" readString
  let a ← readField j "answer" readString
  some ⟨q, a⟩

/-- Read a `GuideStep`. -/
def readGuideStep (j : Json) : Option GuideStep := do
  let t ← readField j "title" readString
  let c ← readField j "content" readString
  let fu ← readOptField j "followUps" (readArr readFollowUp)
  let sfu ← readOptField j "suggestedFollowUps" (readArr readString)
  some ⟨t, c, fu, sfu⟩

/-- Read a `SolvedQuestion`. -/
def readSolvedQuestion (j : Json) : Option SolvedQuestion := do
  let t ← readField j "title" readString
  let a ← readField j "answer" readString
  let e ← readField j "explanation" readString
  let r ← readField j "reference" readString
  let fu ← readOptField j "followUps" (readArr readFollowUp)
  some ⟨t, a, e, r, fu⟩

/-- Read a `KeyConcept`. -/
def readKeyConcept (j : Json) : Option KeyConcept := do
  let t ← readField j "term" readString
  let d ← readField j "definition" readString
  some ⟨t, d⟩

/-- Read a `Flashcard`. -/
def readFlashcard (j : Json) : Option Flashcard := do
  let q ← readField j "question" readString
  let a ← readField j "answer" readString
  some ⟨q, a⟩

/-- Read a `GradedAnswer`. -/
def readGradedAnswer (j : Json) : Option GradedAnswer := do
  let q ← readField j "questionText" readString
  let u ← readField j "userAnswer" readString
  let f ← readField j "feedback" readString
  let s ← readField j "suggestedAnswer" readString
  let c ← readField j "isCorrect" readBool
  some ⟨q, u, f, s, c⟩

/-- Read a `GeneratedContent` record (all fields optional). -/
def readGeneratedContent (j : Json) : Option GeneratedContent := do
  let g ← readOptField j "guide" (readArr readGuideStep)
  let sq ← readOptField j "solvedQuestions" (readArr readSolvedQuestion)
  let kc ← readOptField j "keyConcepts" (readArr readKeyConcept)
  let fc ← readOptField j "flashcards" (readArr readFlashcard)
  let er ← readOptField j "examResults" (readArr readGradedAnswer)
  some ⟨g, sq, kc, fc, er⟩

/-- Read a `SerializableFile`. -/
def readSerializableFile (j : Json) : Option SerializableFile := do
  let n ← readField j "name" readString
  let t ← readField j "type" readString
  let lm ← readField j "lastModified" readInt
  let d ← readField j "data" readString
  some ⟨n, t, lm, d⟩

/-- Read a whole `SavedSession`. -/
def readSavedSession (j : Json) : Option SavedSession := do
  let st ← readField j "appState" (fun v => readString v >>= appStateOfString)
  let sf ← readField j "scriptFiles" (readArr readSerializableFile)
  let pf ← readOptField j "practiceFile" readSerializableFile
  let gc ← readField j "generatedContent" readGeneratedContent
  let osi ← readOptField j "openStepIndex" readInt
  let usc ← readField j "useStrictContext" readBool
  let dl ← readField j "detailLevel" (fun v => readString v >>= detailLevelOfString)
  let mn ← readField j "model" (fun v => readString v >>= modelNameOfString)
  let sa ← readField j "selectedScriptAction"
      (fun v => readString v >>= scriptActionOfString)
  some ⟨st, sf, pf, gc, osi, usc, dl, mn, sa⟩

/-! ## The session load effect (`App`, initial `useEffect`)

```ts
try {
  const savedStateJSON = localStorage.getItem(SESSION_STORAGE_KEY);
  if (savedStateJSON) {
    const savedState: SavedSession = JSON.parse(savedStateJSON);
    if (savedState.appState !== 'initial') {
        setSavedSessionData(savedState);
        setShowSessionPrompt(true);
    }
  }
} catch (err) {
  localStorage.removeItem(SESSION_STORAGE_KEY);
}
```
-/

/-- Result of the load effect: the candidate offered for resumption (if
any), whether the resume prompt is shown, and the storage slot afterwards. -/
structure LoadOutcome where
  savedSessionData : Option Json
  showSessionPrompt : Bool
  storedAfter : Option String

/-- The body of the load effect's `try` block.  `.error` is a thrown JS
exception: `SyntaxError` from `JSON.parse`, or `TypeError` from reading
`.appState` off a parsed `null`.  The stored value is run through the
abstract parser `parse`; an empty stored string is falsy and skipped by
`if (savedStateJSON)`. -/
def loadSessionBody (stored : Option String) (parse : String → Option Json) :
    Except String (Option Json) :=
  match stored with
  | none => .ok none
  | some s =>
      if s = "" then .ok none
      else
        match parse s with
        | none => .error "SyntaxError"
        | some j =>
            match jsAccess j "appState" with
            | .error e => .error e
            | .ok v => if jsIsStr v "initial" then .ok none else .ok (some j)

/-- The whole load effect: the `catch` turns any thrown exception into
`removeItem` on the fixed key, with no candidate session. -/
def loadSessionEffect (stored : Option String) (parse : String → Option Json) :
    LoadOutcome :=
  match loadSessionBody stored parse with
  | .ok r => { savedSessionData := r, showSessionPrompt := r.isSome, storedAfter := stored }
  | .error _ => { savedSessionData := none, showSessionPrompt := false, storedAfter := none }

/-! ## The save effect (`App`, `saveSession` `useEffect`) -/

/-- Serialization of one in-memory file for persistence (the `async` map in
`saveSession` and `handleExportSession`). -/
def serializeFile (f : JsFile) : SerializableFile :=
  { name := f.name, type := f.type, lastModified := f.lastModified,
    data := fileToBase64 f }

/-- The `sessionToSave` object assembled by the save effect. -/
def buildSavedSession (a : AppModel) : SavedSession :=
  { appState := a.appState
    scriptFiles := a.scriptFiles.map serializeFile
    practiceFile := a.practiceFile.map serializeFile
    generatedContent := a.generatedContent
    openStepIndex := a.openStepIndex
    useStrictContext := a.useStrictContext
    detailLevel := a.detailLevel
    model := a.model
    selectedScriptAction := a.selectedScriptAction }

/-- Outcome of the `localStorage.setItem` write: success, the
quota-exceeded `DOMException` (`QuotaExceededError` name or legacy code
22), or any other failure reaching the same `catch`. -/
inductive WriteOutcome
  | ok
  | quotaExceeded
  | failed (why : String)
deriving DecidableEq, Repr

/-- The `notification?.type === 'warning'` test. -/
def isWarningNotification : Option AppNotification → Bool
  | some n => n.type == .warning
  | none => false

/-- The sticky quota warning set by the save effect. -/
def quotaWarning : AppNotification :=
  { message := "Warnung: Ihre Sitzung ist zu groß, um sie zu speichern. Ihr Fortschritt wird bei einem Neuladen nicht wiederhergestellt."
    type := .warning }

/-- The save effect.  Returns the app state afterwards together with the
snapshot written to the fixed key (`none` when no write happened: the
transient-state guard returned early, or the write failed).  On a
successful write a previous warning notification is cleared; on quota
exhaustion the sticky quota warning is set; any other failure is only
logged (`console.error`), leaving the state untouched. -/
def saveSession (a : AppModel) (w : WriteOutcome) :
    AppModel × Option SavedSession :=
  if a.appState = AppState.initial ∨ a.appState = AppState.loading
      ∨ a.showSessionPrompt = true then
    (a, none)
  else
    match w with
    | .ok =>
        ({ a with notification :=
            if isWarningNotification a.notification then none else a.notification },
         some (buildSavedSession a))
    | .quotaExceeded => ({ a with notification := some quotaWarning }, none)
    | .failed _ => (a, none)

/-! ## Reset and new-session handlers -/

/-- `handleReturnToConfig`: back to the setup screen, clearing generated
content and questions but keeping uploaded files. -/
def handleReturnToConfig (a : AppModel) : AppModel :=
  { a with generatedContent := {}
           practiceQuestions := []
           examQuestions := []
           allPracticeQuestions := []
           error := none
           openStepIndex := none
           appState := .initial
           progress := 0 }

/-- `handleReset`: `handleReturnToConfig`, drop the uploaded files, and
remove the fixed storage key. -/
def handleReset (w : AppWorld) : AppWorld :=
  { app := { handleReturnToConfig w.app with scriptFiles := [], practiceFile := none }
    stored := none }

/-- `handleStartNewSession`: remove the fixed storage key, hide the resume
prompt, discard the candidate snapshot, and `handleReset`. -/
def handleStartNewSession (w : AppWorld) : AppWorld :=
  handleReset
    { w with stored := none
             app := { w.app with showSessionPrompt := false, savedSessionData := none } }

/-! ## Session restoration (`restoreSessionState`, `handleRestoreSession`) -/

/-- Decode every serialized script document back into a live file handle
(`sessionData.scriptFiles.map(f => base64ToFile(f.data, f.name, f.type))`);
the first malformed payload throws, aborting the whole map. -/
def decodeScriptFiles (fs : List SerializableFile) (now : Int) :
    Option (List JsFile) :=
  traverseOption (fun f => base64ToFile f.data f.name f.type now) fs

/-- Decode the optional practice document
(`sessionData.practiceFile ? base64ToFile(...) : null`). -/
def decodePracticeFile (pf : Option SerializableFile) (now : Int) :
    Option (Option JsFile) :=
  match pf with
  | none => some none
  | some f => (base64ToFile f.data f.name f.type now).map some

/-- The warning surfaced when restoring a session fails. -/
def restoreWarning : AppNotification :=
  { message := "Die Sitzungsdatei konnte nicht wiederhergestellt werden.", type := .warning }

/-- `restoreSessionState`: decode all binary payloads, then populate every
corresponding state hook and set the screen to the snapshot's `appState`,
returning `true`.  Both decode steps precede every state write, so a decode
failure changes nothing of the session fields; the `catch` then surfaces
`restoreWarning` and falls back to `handleStartNewSession`, returning
`false`. -/
def restoreSessionState (w : AppWorld) (sessionData : SavedSession) (now : Int) :
    AppWorld × Bool :=
  match decodeScriptFiles sessionData.scriptFiles now,
        decodePracticeFile sessionData.practiceFile now with
  | some files, some pf =>
      ({ w with app := { w.app with
            scriptFiles := files
            practiceFile := pf
            generatedContent := sessionData.generatedContent
            openStepIndex := sessionData.openStepIndex
            useStrictContext := sessionData.useStrictContext
            detailLevel := sessionData.detailLevel
            model := sessionData.model
            selectedScriptAction := sessionData.selectedScriptAction
            appState := sessionData.appState } },
       true)
  | _, _ =>
      (handleStartNewSession
         { w with app := { w.app with notification := some restoreWarning } },
       false)

/-- `handleRestoreSession` (the "continue" choice of the resume prompt). -/
def handleRestoreSession (w : AppWorld) (now : Int) : AppWorld :=
  match w.app.savedSessionData with
  | none => w
  | some sessionData =>
      let wr := (restoreSessionState w sessionData now).1
      { wr with app := { wr.app with showSessionPrompt := false, savedSessionData := none } }

/-! ## Session import (`handleImportSession`) -/

/-- Warning shown when the picked file is not a `.json` file. -/
def pickJsonWarning : AppNotification :=
  { message := "Bitte wählen Sie eine gültige .json Sitzungsdatei aus.", type := .warning }

/-- Warning shown by the import `catch` (JSON parse failure or the
`throw new Error("Ungültiges Sitzungsdateiformat.")` of the validation). -/
def badSessionWarning : AppNotification :=
  { message := "Die ausgewählte Datei ist keine gültige Sitzungsdatei.", type := .warning }

/-- Success notification of a completed import. -/
def importSuccess : AppNotification :=
  { message := "Sitzung erfolgreich importiert!", type := .success }

/-- The import validation check
`if (sessionData.appState && sessionData.scriptFiles)`: JS truthiness of the
two properties, nothing more.  (For a parsed `null` the property access
itself throws; `handleImportSession` handles that case separately.) -/
def importCheck (j : Json) : Bool :=
  jsTruthy (jsGet j "appState") && jsTruthy (jsGet j "scriptFiles")

/-! ### The dynamic reconstruction path

The source casts the parsed value (`const sessionData: SavedSession =
JSON.parse(result)`), so a candidate passing the truthy check is handed to
`restoreSessionState` whatever its actual shape.  For a value inhabiting
the `SavedSession` interface this is the typed path above
(`decodeDynScriptFiles_readable` below proves the two agree there).  For
any other value the source behaves dynamically: `sessionData.scriptFiles`
must be an array or `.map` throws a `TypeError`; each element must be
non-`null` or reading `.data` throws; `atob` coerces its argument with JS
`ToString` (`undefined` becomes the 9-character string `"undefined"`, which
always fails the forgiving decode); the `File` constructor coerces the name
the same way and treats an `undefined` `type` option as absent (empty
string).  If nothing throws, every hook is written with the candidate's
property values — values that may lie outside their TypeScript types — and
the success notification is emitted.
-/

mutual

/-- JS `ToString` of a JSON-representable value (`Array.prototype.toString`
is `join(",")`, with `null` elements rendered empty; objects give
`[object Object]`). -/
def jsToString : Json → String
  | .null => "null"
  | .bool b => if b then "true" else "false"
  | .num n => toString n
  | .str s => s
  | .arr xs => String.intercalate "," (jsArrToStrings xs)
  | .obj _ => "[object Object]"

/-- Elementwise rendering inside `Array.prototype.toString`. -/
def jsArrToStrings : List Json → List String
  | [] => []
  | .null :: xs => "" :: jsArrToStrings xs
  | x :: xs => jsToString x :: jsArrToStrings xs

end

/-- JS `ToString` of a possibly-`undefined` value (as `atob` and the `File`
name argument receive it). -/
def jsToStringOpt : Option Json → String
  | none => "undefined"
  | some v => jsToString v

/-- One element of the dynamic `scriptFiles.map(f => base64ToFile(f.data,
f.name, f.type))`: `none` models a thrown exception (`TypeError` on a
`null` element, or `atob` failing on the coerced `data`).  An `undefined`
`type` is an absent `File` option, giving the empty type string. -/
def decodeDynFile (f : Json) (now : Int) : Option JsFile :=
  match f with
  | .null => none
  | _ =>
      base64ToFile (jsToStringOpt (jsGet f "data")) (jsToStringOpt (jsGet f "name"))
        (match jsGet f "type" with
         | none => ""
         | some v => jsToString v) now

/-- The dynamic `sessionData.scriptFiles.map(...)` step: anything but an
array has no `.map` and throws. -/
def decodeDynScriptFiles (sf : Option Json) (now : Int) : Option (List JsFile) :=
  match sf with
  | some (.arr xs) => traverseOption (fun f => decodeDynFile f now) xs
  | _ => none

/-- The dynamic `sessionData.practiceFile ? base64ToFile(...) : null` step:
a falsy value (absent, `null`, `false`, `0`, `""`) gives `null`; a truthy
value (necessarily non-`null`) is decoded like a script-file element. -/
def decodeDynPracticeFile (pf : Option Json) (now : Int) : Option (Option JsFile) :=
  if jsTruthy pf then
    match pf with
    | some v => (decodeDynFile v now).map some
    | none => some none
  else some none

/-- Result of `handleImportSession`.  `world` is a fully representable
outcome.  `untypedAdoption w candidate` is the one outcome the typed
`AppModel` cannot carry: reconstruction of a candidate outside the
`SavedSession` interface ran to completion, so the source replaced the live
state and emitted the success notification.  `w` holds every representable
write (the decoded script files, the decoded practice file, the success
notification, and all fields the import does not touch); the candidate's
`generatedContent`, `openStepIndex`, `useStrictContext`, `detailLevel`,
`model`, `selectedScriptAction` and `appState` properties — recoverable
from the recorded `candidate` — were also written into the corresponding
hooks, with values outside their TypeScript types. -/
inductive ImportResult
  | world (w : AppWorld)
  | untypedAdoption (w : AppWorld) (candidate : Json)

/-- `handleImportSession`.  `fileType` is the picked file's MIME type;
`parsed` is the outcome of `JSON.parse` on the file text (`none` = thrown
`SyntaxError`, caught by the handler's `catch`; a parsed `null` throws a
`TypeError` on the property access into the same `catch`).  A candidate
passing the truthy validation check is handed to the reconstruction path:
a value inhabiting the `SavedSession` interface goes through the typed
`restoreSessionState` (with the success notification when it returns
`true`); any other value runs the dynamic reconstruction — a thrown decode
lands in `restoreSessionState`'s `catch` (restore warning, fresh session),
and a completed one adopts the candidate's untyped property values with the
success notification (`ImportResult.untypedAdoption`). -/
def handleImportSession (w : AppWorld) (fileType : String) (parsed : Option Json)
    (now : Int) : ImportResult :=
  if fileType ≠ "application/json" then
    .world { w with app := { w.app with notification := some pickJsonWarning } }
  else
    match parsed with
    | none => .world { w with app := { w.app with notification := some badSessionWarning } }
    | some j =>
        match j with
        | .null => .world { w with app := { w.app with notification := some badSessionWarning } }
        | _ =>
            if importCheck j then
              match readSavedSession j with
              | some sessionData =>
                  let r := restoreSessionState w sessionData now
                  if r.2 then
                    .world { r.1 with app := { r.1.app with notification := some importSuccess } }
                  else .world r.1
              | none =>
                  match decodeDynScriptFiles (jsGet j "scriptFiles") now,
                        decodeDynPracticeFile (jsGet j "practiceFile") now with
                  | some files, some pf =>
                      .untypedAdoption
                        { w with app := { w.app with
                            scriptFiles := files
                            practiceFile := pf
                            notification := some importSuccess } } j
                  | _, _ =>
                      .world (handleStartNewSession
                        { w with app := { w.app with notification := some restoreWarning } })
            else
              .world { w with app := { w.app with notification := some badSessionWarning } }

/-! ## Content producers (`handleGenerateGuide`, `handleSolvePractice`) -/

/-- Outcome of an awaited generation-service call: a value, or a thrown
error with its `message`. -/
inductive CallOutcome (α : Type)
  | ok (value : α)
  | threw (message : String)
deriving DecidableEq, Repr

/-- `startLoadingProcess` (explicit state writes; the interval-driven random
progress ticks are timing noise outside every claim). -/
def startLoadingProcess (a : AppModel) (message : Option String) : AppModel :=
  { a with appState := .loading, progress := 0, error := none,
           loadingMessage := message }

/-- `handleLoadingError`; an empty thrown message falls back to the default
text (JS `err.message || "..."`). -/
def handleLoadingError (a : AppModel) (message : String) : AppModel :=
  { a with progress := 0
           error := some (if message = "" then "Ein unerwarteter Fehler ist aufgetreten." else message)
           appState := .error
           loadingMessage := none }

/-- `handleGenerateGuide`.  The guard `result.guide && result.guide.length > 0`
is modelled as a length check (`GuideResponse.guide` is `GuideStep[]`; a
`null` result and an empty result take the same `else` branch, which throws
into the handler's own `catch`). -/
def handleGenerateGuide (a : AppModel) (call : CallOutcome (List GuideStep)) :
    AppModel :=
  if a.scriptFiles.isEmpty then a
  else
    let a1 := { a with error := none }
    match call with
    | .threw message =>
        let m := if message = "" then "Fehler beim Generieren des Guides." else message
        { a1 with notification := some ⟨m, .warning⟩ }
    | .ok g =>
        if g.length > 0 then
          { a1 with
              generatedContent :=
                { a1.generatedContent with guide := some g, solvedQuestions := none }
              openStepIndex := some 0 }
        else
          let m := "Die KI konnte keinen Guide für dieses Dokument erstellen."
          { a1 with notification := some ⟨m, .warning⟩ }

/-- `handleSolvePractice`.  `extract` is the awaited `extractQuestions`
call, `solve` the awaited `solvePracticeQuestions` call on the first batch
(`allQuestions.slice(0, 5)`).  An empty solve result makes the source throw
inside the `setTimeout` callback of `finishLoadingProcess`, where the outer
`catch` can no longer see it: the state is left with the loading screen
still active (progress 100, message cleared). -/
def handleSolvePractice (a : AppModel) (extract : CallOutcome (List ExamQuestion))
    (solve : CallOutcome (List SolvedQuestion)) : AppModel :=
  if a.scriptFiles.isEmpty ∨ a.practiceFile = none then a
  else
    let a1 := startLoadingProcess a
        (some "Extrahiere Fragen und löse die erste Gruppe...")
    match extract with
    | .threw m => handleLoadingError a1 m
    | .ok allQuestions =>
        if allQuestions.length = 0 then
          handleLoadingError a1
            "Es konnten keine Fragen aus dem Übungsdokument extrahiert werden."
        else
          let a2 := { a1 with allPracticeQuestions := allQuestions }
          match solve with
          | .threw m => handleLoadingError a2 m
          | .ok solvedQuestions =>
              let a3 := { a2 with progress := 100, loadingMessage := none }
              if solvedQuestions.length > 0 then
                { a3 with
                    generatedContent :=
                      { a3.generatedContent with
                          solvedQuestions := some solvedQuestions, guide := none }
                    appState := .resultsDashboard
                    openStepIndex := some 0 }
              else a3

/-! ## Claim theorems -/

/-- A concrete uploaded document used by witnesses. -/
def sampleFile : JsFile := ⟨"a.pdf", "application/pdf", 1, [1, 2, 3]⟩

/-- A concrete dashboard state used by witnesses. -/
def dashModel : AppModel :=
  { initialAppModel with appState := .resultsDashboard, scriptFiles := [sampleFile] }

/-- C3: while the screen state is `initial` or `loading`, or the resume
prompt is still displayed, the save effect writes nothing to the persistent
session key, whatever the other fields are; and every snapshot it does
write has a screen state that is neither `initial` nor `loading`. -/
theorem saveSession_transient_exclusion :
    (∀ (a : AppModel) (w : WriteOutcome),
        a.appState = AppState.initial ∨ a.appState = AppState.loading
            ∨ a.showSessionPrompt = true →
        (saveSession a w).2 = none)
    ∧ (∀ (a : AppModel) (w : WriteOutcome) (sd : SavedSession),
        (saveSession a w).2 = some sd →
        sd.appState ≠ AppState.initial ∧ sd.appState ≠ AppState.loading) := by
  constructor
  · intro a w h
    unfold saveSession
    rw [if_pos h]
  · intro a w sd h
    unfold saveSession at h
    split at h
    · simp at h
    · rename_i hg
      cases w with
      | ok =>
          simp only [Option.some.injEq] at h
          have : sd.appState = a.appState := by rw [← h]; rfl
          rw [this]
          push_neg at hg
          exact ⟨hg.1, hg.2.1⟩
      | quotaExceeded => simp at h
      | failed why => simp at h

/-- Witness for C3: a loading-state model is not saved; a dashboard-state
model is saved with a non-transient screen state. -/
theorem saveSession_transient_exclusion_witness :
    ((saveSession { initialAppModel with appState := .loading } .ok).2 = none)
    ∧ ((saveSession dashModel .ok).2 = some (buildSavedSession dashModel)
        ∧ (buildSavedSession dashModel).appState ≠ AppState.initial
        ∧ (buildSavedSession dashModel).appState ≠ AppState.loading) :=
  ⟨saveSession_transient_exclusion.1 _ .ok (Or.inr (Or.inl rfl)),
   by rfl,
   saveSession_transient_exclusion.2 dashModel .ok (buildSavedSession dashModel) (by rfl)⟩

/-- C4: a quota-exceeded write failure makes the save effect set the sticky
quota warning and change nothing else; the warning survives further
non-quota save failures and is cleared by the next successful save; any
other write failure leaves the whole in-memory state unchanged. -/
theorem saveSession_quota_handling :
    ∀ (a : AppModel) (s : String),
      ¬(a.appState = AppState.initial ∨ a.appState = AppState.loading
          ∨ a.showSessionPrompt = true) →
      (saveSession a .quotaExceeded).1 = { a with notification := some quotaWarning }
      ∧ (saveSession { a with notification := some quotaWarning } (.failed s)).1
          = { a with notification := some quotaWarning }
      ∧ (saveSession { a with notification := some quotaWarning } .ok).1.notification
          = none
      ∧ (saveSession a (.failed s)).1 = a := by
  intro a s hg
  refine ⟨?_, ?_, ?_, ?_⟩
  · unfold saveSession
    rw [if_neg hg]
  · unfold saveSession
    rw [if_neg (by simpa using hg)]
  · unfold saveSession
    rw [if_neg (by simpa using hg)]
    simp [isWarningNotification, quotaWarning]
  · unfold saveSession
    rw [if_neg hg]

/-- Witness for C4 on a concrete dashboard state. -/
theorem saveSession_quota_handling_witness :
    (saveSession dashModel .quotaExceeded).1
        = { dashModel with notification := some quotaWarning }
    ∧ (saveSession { dashModel with notification := some quotaWarning } (.failed "x")).1
        = { dashModel with notification := some quotaWarning }
    ∧ (saveSession { dashModel with notification := some quotaWarning } .ok).1.notification
        = none
    ∧ (saveSession dashModel (.failed "x")).1 = dashModel :=
  saveSession_quota_handling dashModel "x" (by simp [dashModel, initialAppModel])

/-- C8: the producers keep `guide` and `solvedQuestions` mutually
exclusive: a successful guide generation stores the guide and clears
`solvedQuestions` in the same update, and a successful practice-solving run
stores the solved questions and clears `guide` in the same update. -/
theorem producers_guide_solved_mutually_exclusive :
    (∀ (a : AppModel) (g : List GuideStep),
        ¬a.scriptFiles.isEmpty → g ≠ [] →
        (handleGenerateGuide a (.ok g)).generatedContent.guide = some g
        ∧ (handleGenerateGuide a (.ok g)).generatedContent.solvedQuestions = none)
    ∧ (∀ (a : AppModel) (qs : List ExamQuestion) (sq : List SolvedQuestion),
        ¬a.scriptFiles.isEmpty → a.practiceFile ≠ none → qs ≠ [] → sq ≠ [] →
        (handleSolvePractice a (.ok qs) (.ok sq)).generatedContent.solvedQuestions
            = some sq
        ∧ (handleSolvePractice a (.ok qs) (.ok sq)).generatedContent.guide = none) := by
  constructor
  · intro a g hs hg
    have hlen : 0 < g.length := List.length_pos.mpr hg
    unfold handleGenerateGuide
    rw [if_neg hs]
    dsimp only
    rw [if_pos hlen]
    exact ⟨rfl, rfl⟩
  · intro a qs sq hs hp hq hsq
    have hqlen : ¬qs.length = 0 := by simpa [List.length_eq_zero] using hq
    have hsqlen : 0 < sq.length := List.length_pos.mpr hsq
    unfold handleSolvePractice
    rw [if_neg (not_or.mpr ⟨hs, hp⟩)]
    dsimp only
    rw [if_neg hqlen]
    rw [if_pos hsqlen]
    exact ⟨rfl, rfl⟩

/-- Witness for C8 on concrete one-element results. -/
theorem producers_guide_solved_mutually_exclusive_witness :
    ((handleGenerateGuide dashModel
          (.ok [⟨"Intro", "c", none, none⟩])).generatedContent.guide
        = some [⟨"Intro", "c", none, none⟩]
      ∧ (handleGenerateGuide dashModel
          (.ok [⟨"Intro", "c", none, none⟩])).generatedContent.solvedQuestions = none)
    ∧ ((handleSolvePractice { dashModel with practiceFile := some sampleFile }
            (.ok [⟨"q1", "t"⟩]) (.ok [⟨"t", "a", "e", "r", none⟩])).generatedContent.solvedQuestions
        = some [⟨"t", "a", "e", "r", none⟩]
      ∧ (handleSolvePractice { dashModel with practiceFile := some sampleFile }
            (.ok [⟨"q1", "t"⟩]) (.ok [⟨"t", "a", "e", "r", none⟩])).generatedContent.guide
        = none) :=
  ⟨producers_guide_solved_mutually_exclusive.1 dashModel _ (by simp [dashModel]) (by simp),
   producers_guide_solved_mutually_exclusive.2 _ _ _ (by simp [dashModel]) (by simp)
     (by simp) (by simp)⟩

/-- Decoding the serialization of an in-memory file restores its name, type
and exact bytes; `lastModified` is re-stamped with the restore-time clock. -/
theorem base64ToFile_encode (f : JsFile) (now : Int) (h : ∀ b ∈ f.data, b < 256) :
    base64ToFile (fileToBase64 f) f.name f.type now
      = some { f with lastModified := now } := by
  unfold base64ToFile
  rw [show (fileToBase64 f).data = encodeBytes f.data from rfl]
  rw [decodeBase64Chars_encodeBytes f.data h]
  rfl

/-- Decoding a serialized script-file list restores every document. -/
theorem decodeScriptFiles_serialize (fs : List JsFile) (now : Int)
    (h : ∀ f ∈ fs, ∀ b ∈ f.data, b < 256) :
    decodeScriptFiles (fs.map serializeFile) now
      = some (fs.map fun f => { f with lastModified := now }) := by
  induction fs with
  | nil => rfl
  | cons f fs ih =>
      have hf := h f (by simp)
      have hfs : ∀ x ∈ fs, ∀ b ∈ x.data, b < 256 := fun x hx => h x (by simp [hx])
      have hihs := ih hfs
      unfold decodeScriptFiles at hihs ⊢
      simp only [List.map_cons, traverseOption]
      rw [show base64ToFile (serializeFile f).data (serializeFile f).name
            (serializeFile f).type now = some { f with lastModified := now } from
          base64ToFile_encode f now hf]
      rw [hihs]
      rfl

/-- C9: when reconstruction of a snapshot into live file handles fails
during the resume/import path, the failure is absorbed (the function still
returns, with `false`), the restore warning is surfaced, the stored session
key is cleared, and the controller falls back to the fresh default session
of `handleStartNewSession` — no field of the snapshot is adopted. -/
theorem restore_failure_falls_back (w : AppWorld) (sd : SavedSession) (now : Int)
    (hfail : decodeScriptFiles sd.scriptFiles now = none
        ∨ decodePracticeFile sd.practiceFile now = none) :
    (restoreSessionState w sd now).2 = false
    ∧ (restoreSessionState w sd now).1
        = handleStartNewSession
            { w with app := { w.app with notification := some restoreWarning } }
    ∧ (restoreSessionState w sd now).1.stored = none
    ∧ (restoreSessionState w sd now).1.app.notification = some restoreWarning
    ∧ (restoreSessionState w sd now).1.app.appState = AppState.initial
    ∧ (restoreSessionState w sd now).1.app.scriptFiles = []
    ∧ (restoreSessionState w sd now).1.app.practiceFile = none
    ∧ (restoreSessionState w sd now).1.app.generatedContent = {}
    ∧ (restoreSessionState w sd now).1.app.showSessionPrompt = false
    ∧ (restoreSessionState w sd now).1.app.savedSessionData = none := by
  unfold restoreSessionState
  rcases hfail with hf | hf
  · rw [hf]
    exact ⟨rfl, rfl, rfl, rfl, rfl, rfl, rfl, rfl, rfl, rfl⟩
  · cases hds : decodeScriptFiles sd.scriptFiles now with
    | none =>
        exact ⟨rfl, rfl, rfl, rfl, rfl, rfl, rfl, rfl, rfl, rfl⟩
    | some files =>
        rw [hf]
        exact ⟨rfl, rfl, rfl, rfl, rfl, rfl, rfl, rfl, rfl, rfl⟩

/-- A concrete snapshot whose script file carries malformed base64. -/
def badPayloadSession : SavedSession :=
  { appState := .guided
    scriptFiles := [⟨"a.pdf", "application/pdf", 1, "!"⟩]
    practiceFile := none
    generatedContent := {}
    openStepIndex := none
    useStrictContext := true
    detailLevel := .standard
    model := .gemini25flash
    selectedScriptAction := .guide }

/-- Witness for C9: restoring `badPayloadSession` over a dashboard world
falls back to the fresh default session. -/
theorem restore_failure_falls_back_witness :
    (decodeScriptFiles badPayloadSession.scriptFiles 0 = none
        ∨ decodePracticeFile badPayloadSession.practiceFile 0 = none)
    ∧ (restoreSessionState ⟨dashModel, some "blob"⟩ badPayloadSession 0).2 = false
    ∧ (restoreSessionState ⟨dashModel, some "blob"⟩ badPayloadSession 0).1.stored = none
    ∧ (restoreSessionState ⟨dashModel, some "blob"⟩ badPayloadSession 0).1.app.notification
        = some restoreWarning
    ∧ (restoreSessionState ⟨dashModel, some "blob"⟩ badPayloadSession 0).1.app.appState
        = AppState.initial :=
  have happ := restore_failure_falls_back ⟨dashModel, some "blob"⟩ badPayloadSession 0
    (Or.inl (by decide))
  ⟨Or.inl (by decide), happ.1, happ.2.2.1, happ.2.2.2.1, happ.2.2.2.2.1⟩

/-- C10: the persisted snapshot has no field for exam questions or
extracted practice questions; resuming a saved exam/guided/simulation
session therefore restores documents, generated content and configuration
from the snapshot while the restored `examQuestions` and
`practiceQuestions` lists are the empty bootstrap values, even when the
original session had non-empty ones. -/
theorem restore_omits_question_lists (a : AppModel) (now : Int) (st : Option String)
    (hscreen : a.appState = AppState.guided ∨ a.appState = AppState.exam
        ∨ a.appState = AppState.simulation)
    (hex : a.examQuestions ≠ []) (hpq : a.practiceQuestions ≠ [])
    (hbound : ∀ f ∈ a.scriptFiles, ∀ b ∈ f.data, b < 256)
    (hpbound : ∀ f, a.practiceFile = some f → ∀ b ∈ f.data, b < 256) :
    (handleRestoreSession
        ⟨{ initialAppModel with
             savedSessionData := some (buildSavedSession a)
             showSessionPrompt := true }, st⟩ now).app.examQuestions = []
    ∧ (handleRestoreSession
        ⟨{ initialAppModel with
             savedSessionData := some (buildSavedSession a)
             showSessionPrompt := true }, st⟩ now).app.practiceQuestions = []
    ∧ (handleRestoreSession
        ⟨{ initialAppModel with
             savedSessionData := some (buildSavedSession a)
             showSessionPrompt := true }, st⟩ now).app.generatedContent
        = a.generatedContent
    ∧ (handleRestoreSession
        ⟨{ initialAppModel with
             savedSessionData := some (buildSavedSession a)
             showSessionPrompt := true }, st⟩ now).app.appState = a.appState
    ∧ (handleRestoreSession
        ⟨{ initialAppModel with
             savedSessionData := some (buildSavedSession a)
             showSessionPrompt := true }, st⟩ now).app.scriptFiles
        = a.scriptFiles.map (fun f => { f with lastModified := now })
    ∧ (handleRestoreSession
        ⟨{ initialAppModel with
             savedSessionData := some (buildSavedSession a)
             showSessionPrompt := true }, st⟩ now).app.practiceFile
        = a.practiceFile.map (fun f => { f with lastModified := now })
    ∧ (handleRestoreSession
        ⟨{ initialAppModel with
             savedSessionData := some (buildSavedSession a)
             showSessionPrompt := true }, st⟩ now).app.useStrictContext
        = a.useStrictContext
    ∧ (handleRestoreSession
        ⟨{ initialAppModel with
             savedSessionData := some (buildSavedSession a)
             showSessionPrompt := true }, st⟩ now).app.detailLevel = a.detailLevel
    ∧ (handleRestoreSession
        ⟨{ initialAppModel with
             savedSessionData := some (buildSavedSession a)
             showSessionPrompt := true }, st⟩ now).app.model = a.model
    ∧ (handleRestoreSession
        ⟨{ initialAppModel with
             savedSessionData := some (buildSavedSession a)
             showSessionPrompt := true }, st⟩ now).app.selectedScriptAction
        = a.selectedScriptAction
    ∧ (handleRestoreSession
        ⟨{ initialAppModel with
             savedSessionData := some (buildSavedSession a)
             showSessionPrompt := true }, st⟩ now).app.openStepIndex
        = a.openStepIndex := by
  have hdecs : decodeScriptFiles (buildSavedSession a).scriptFiles now
      = some (a.scriptFiles.map fun f => { f with lastModified := now }) :=
    decodeScriptFiles_serialize a.scriptFiles now hbound
  have hdecp : decodePracticeFile (buildSavedSession a).practiceFile now
      = some (a.practiceFile.map fun f => { f with lastModified := now }) := by
    show decodePracticeFile (a.practiceFile.map serializeFile) now = _
    cases hp : a.practiceFile with
    | none => rfl
    | some f =>
        show Option.map some (base64ToFile (fileToBase64 f) f.name f.type now) = _
        rw [base64ToFile_encode f now (hpbound f hp)]
        rfl
  unfold handleRestoreSession
  dsimp only
  unfold restoreSessionState
  rw [hdecs, hdecp]
  exact ⟨rfl, rfl, rfl, rfl, rfl, rfl, rfl, rfl, rfl, rfl, rfl⟩

/-- A concrete state used by the C10 witness: an exam session with
non-empty question lists and no practice document. -/
def examModel : AppModel :=
  { dashModel with
      appState := .exam
      examQuestions := [⟨"q1", "Frage eins"⟩]
      practiceQuestions := [⟨"q2", "Frage zwei"⟩]
      practiceFile := some sampleFile }

/-- Witness for C10 at the concrete `examModel`. -/
theorem restore_omits_question_lists_witness :
    examModel.examQuestions ≠ [] ∧ examModel.practiceQuestions ≠ []
    ∧ (handleRestoreSession
        ⟨{ initialAppModel with
             savedSessionData := some (buildSavedSession examModel)
             showSessionPrompt := true }, some "blob"⟩ 7).app.examQuestions = []
    ∧ (handleRestoreSession
        ⟨{ initialAppModel with
             savedSessionData := some (buildSavedSession examModel)
             showSessionPrompt := true }, some "blob"⟩ 7).app.practiceQuestions = []
    ∧ (handleRestoreSession
        ⟨{ initialAppModel with
             savedSessionData := some (buildSavedSession examModel)
             showSessionPrompt := true }, some "blob"⟩ 7).app.generatedContent
        = examModel.generatedContent
    ∧ (handleRestoreSession
        ⟨{ initialAppModel with
             savedSessionData := some (buildSavedSession examModel)
             showSessionPrompt := true }, some "blob"⟩ 7).app.appState
        = examModel.appState :=
  have happ := restore_omits_question_lists examModel 7 (some "blob")
    (Or.inr (Or.inl rfl)) (by decide) (by decide) (by decide)
    (fun f h => by injection h with h2; subst h2; decide)
  ⟨by decide, by decide, happ.1, happ.2.1, happ.2.2.1, happ.2.2.2.1⟩

/-- A dashboard-world exam state without a practice document. -/
def examNoPractice : AppModel := { dashModel with appState := .exam }

/-- A guided snapshot with no practice document (and trivially decodable
payloads). -/
def guidedNoPracticeSession : SavedSession :=
  { appState := .guided
    scriptFiles := []
    practiceFile := none
    generatedContent := {}
    openStepIndex := none
    useStrictContext := true
    detailLevel := .standard
    model := .gemini25flash
    selectedScriptAction := .guide }

/-- Counterexample to C7: the save effect persists an exam-state snapshot
whose `practiceFile` is absent, and `restoreSessionState` adopts a guided
snapshot with a missing practice document (returning `true` and setting the
screen to `guided` with no practice file) instead of treating it as
corrupt. -/
theorem practice_document_requirement_cex :
    (saveSession examNoPractice .ok).2 = some (buildSavedSession examNoPractice)
    ∧ (buildSavedSession examNoPractice).appState = AppState.exam
    ∧ (buildSavedSession examNoPractice).practiceFile = none
    ∧ (restoreSessionState ⟨initialAppModel, none⟩ guidedNoPracticeSession 0).2 = true
    ∧ (restoreSessionState ⟨initialAppModel, none⟩ guidedNoPracticeSession 0).1.app.appState
        = AppState.guided
    ∧ (restoreSessionState ⟨initialAppModel, none⟩ guidedNoPracticeSession 0).1.app.practiceFile
        = none := by
  refine ⟨?_, rfl, rfl, rfl, rfl, rfl⟩
  rfl

/-- C7 as amended: `practiceDocument` need not be present when the screen
state is one of guided/exam/simulation — the save effect persists an
exam-state session with `practiceFile` absent as-is — and the consumer does
not treat a missing practice document as corrupt: whenever the binary
payloads decode, `restoreSessionState` adopts the snapshot wholesale,
installing its (possibly absent) practice document and its screen state. -/
theorem practice_document_requirement_amended :
    (∀ a : AppModel,
        a.appState = AppState.exam → a.practiceFile = none →
        a.showSessionPrompt = false →
        (saveSession a .ok).2 = some (buildSavedSession a)
        ∧ (buildSavedSession a).practiceFile = none)
    ∧ (∀ (w : AppWorld) (sd : SavedSession) (now : Int) (files : List JsFile)
          (pf : Option JsFile),
        decodeScriptFiles sd.scriptFiles now = some files →
        decodePracticeFile sd.practiceFile now = some pf →
        (restoreSessionState w sd now).2 = true
        ∧ (restoreSessionState w sd now).1.app.practiceFile = pf
        ∧ (restoreSessionState w sd now).1.app.appState = sd.appState
        ∧ (restoreSessionState w sd now).1.app.scriptFiles = files) := by
  constructor
  · intro a hex hpf hprompt
    unfold saveSession
    rw [if_neg (by simp [hex, hprompt])]
    exact ⟨rfl, by unfold buildSavedSession; rw [hpf]; rfl⟩
  · intro w sd now files pf hds hdp
    unfold restoreSessionState
    rw [hds, hdp]
    exact ⟨rfl, rfl, rfl, rfl⟩

/-- Witness for the amended C7 at `examNoPractice` and
`guidedNoPracticeSession`. -/
theorem practice_document_requirement_amended_witness :
    ((saveSession examNoPractice .ok).2 = some (buildSavedSession examNoPractice)
      ∧ (buildSavedSession examNoPractice).practiceFile = none)
    ∧ ((restoreSessionState ⟨initialAppModel, none⟩ guidedNoPracticeSession 0).2 = true
      ∧ (restoreSessionState ⟨initialAppModel, none⟩ guidedNoPracticeSession 0).1.app.practiceFile
          = none
      ∧ (restoreSessionState ⟨initialAppModel, none⟩ guidedNoPracticeSession 0).1.app.appState
          = guidedNoPracticeSession.appState
      ∧ (restoreSessionState ⟨initialAppModel, none⟩ guidedNoPracticeSession 0).1.app.scriptFiles
          = []) :=
  ⟨practice_document_requirement_amended.1 examNoPractice rfl rfl rfl,
   practice_document_requirement_amended.2 ⟨initialAppModel, none⟩ guidedNoPracticeSession
     0 [] none rfl rfl⟩

/-- Helper: for a parsed non-`null` value the load body reduces to the
`appState !== 'initial'` test. -/
theorem loadSessionBody_parsed (s : String) (parse : String → Option Json)
    (j : Json) (hs : s ≠ "") (hp : parse s = some j) (hnull : j ≠ Json.null) :
    loadSessionBody (some s) parse
      = if jsIsStr (jsGet j "appState") "initial" then .ok none else .ok (some j) := by
  unfold loadSessionBody
  dsimp only
  rw [if_neg hs, hp]
  cases j with
  | null => exact absurd rfl hnull
  | bool b => rfl
  | num n => rfl
  | str t => rfl
  | arr xs => rfl
  | obj fields => rfl

/-- The concrete parse function standing for `JSON.parse` in the C2
counterexample: the text `{}` parses to the empty object (exactly what
`JSON.parse` returns there). -/
def parseEmptyObj : String → Option Json :=
  fun s => if s = "\x7b\x7d" then some (Json.obj []) else none

/-- Counterexample to C2: the stored value `{}` is valid JSON but fails any
structural validation (it has no `appState`/`screenState` at all, and does
not read as a `SavedSession`); the claim demands that the load yield no
session and remove the stored key, yet the load effect offers it as a
session (the resume prompt is shown) and leaves the stored key in place —
no structural validation happens at load. -/
theorem load_corrupt_store_cex :
    readSavedSession (Json.obj []) = none
    ∧ (loadSessionEffect (some "\x7b\x7d") parseEmptyObj).showSessionPrompt = true
    ∧ (loadSessionEffect (some "\x7b\x7d") parseEmptyObj).savedSessionData
        = some (Json.obj [])
    ∧ (loadSessionEffect (some "\x7b\x7d") parseEmptyObj).storedAfter
        = some "\x7b\x7d" := by
  refine ⟨rfl, rfl, rfl, rfl⟩

/-- C2 as amended: the startup load never throws to its caller (every
thrown exception is absorbed by its `catch`); an absent key yields no
session; a stored string that fails to parse as JSON yields no session and
removes the stored key, as does a stored `null` (whose property access
throws a `TypeError` into the same `catch`); but no structural validation
is performed: any other successfully parsed value is offered as a session
whenever its `appState` property is not the string `"initial"`, with the
stored key kept either way. -/
theorem load_effect_amended (parse : String → Option Json) (s : String) (j : Json) :
    loadSessionEffect none parse = ⟨none, false, none⟩
    ∧ (s ≠ "" → parse s = none →
        loadSessionEffect (some s) parse = ⟨none, false, none⟩)
    ∧ (s ≠ "" → parse s = some Json.null →
        loadSessionEffect (some s) parse = ⟨none, false, none⟩)
    ∧ (s ≠ "" → parse s = some j → j ≠ Json.null →
        jsIsStr (jsGet j "appState") "initial" = true →
        loadSessionEffect (some s) parse = ⟨none, false, some s⟩)
    ∧ (s ≠ "" → parse s = some j → j ≠ Json.null →
        jsIsStr (jsGet j "appState") "initial" = false →
        loadSessionEffect (some s) parse = ⟨some j, true, some s⟩) := by
  refine ⟨rfl, ?_, ?_, ?_, ?_⟩
  · intro hs hp
    unfold loadSessionEffect loadSessionBody
    dsimp only
    rw [if_neg hs, hp]
  · intro hs hp
    unfold loadSessionEffect loadSessionBody
    dsimp only
    rw [if_neg hs, hp]
    rfl
  · intro hs hp hnull hinit
    unfold loadSessionEffect
    rw [loadSessionBody_parsed s parse j hs hp hnull, if_pos hinit]
    rfl
  · intro hs hp hnull hinit
    unfold loadSessionEffect
    rw [loadSessionBody_parsed s parse j hs hp hnull,
        if_neg (by rw [hinit]; exact Bool.false_ne_true)]
    rfl

/-- A parse function for the C2 witness: `bad` is unparseable, `good`
parses to an exam-state object, `nul` parses to JSON `null`. -/
def parseSample : String → Option Json :=
  fun s =>
    if s = "good" then some (Json.obj [("appState", Json.str "exam")])
    else if s = "nul" then some Json.null
    else none

/-- Witness for the amended C2 on `parseSample`. -/
theorem load_effect_amended_witness :
    loadSessionEffect none parseSample = ⟨none, false, none⟩
    ∧ loadSessionEffect (some "bad") parseSample = ⟨none, false, none⟩
    ∧ loadSessionEffect (some "nul") parseSample = ⟨none, false, none⟩
    ∧ loadSessionEffect (some "good") parseSample
        = ⟨some (Json.obj [("appState", Json.str "exam")]), true, some "good"⟩ :=
  have h := load_effect_amended parseSample "bad" Json.null
  have h2 := load_effect_amended parseSample "nul" Json.null
  have h3 := load_effect_amended parseSample "good"
      (Json.obj [("appState", Json.str "exam")])
  ⟨h.1,
   h.2.1 (by simp) rfl,
   h2.2.2.1 (by simp) rfl,
   h3.2.2.2.2 (by simp) rfl (by simp) rfl⟩

/-- Inversion of a successful required-field read. -/
theorem readField_eq_some {α : Type} {j : Json} {key : String} {f : Json → Option α}
    {a : α} (h : readField j key f = some a) :
    ∃ v, jsGet j key = some v ∧ f v = some a := by
  unfold readField at h
  cases hv : jsGet j key with
  | none => rw [hv] at h; exact absurd h (by simp)
  | some v => rw [hv] at h; exact ⟨v, rfl, h⟩

/-- A value reading as a string is that string. -/
theorem readString_eq_some {v : Json} {s : String} (h : readString v = some s) :
    v = Json.str s := by
  cases v with
  | str t => simp only [readString, Option.some.injEq] at h; rw [h]
  | null => simp [readString] at h
  | bool b => simp [readString] at h
  | num n => simp [readString] at h
  | arr xs => simp [readString] at h
  | obj fs => simp [readString] at h

/-- Inversion of a successful `traverseOption` on a cons cell. -/
theorem traverseOption_cons_inv {α β : Type} {f : α → Option β} {a : α}
    {as : List α} {bs : List β} (h : traverseOption f (a :: as) = some bs) :
    ∃ b rest, f a = some b ∧ traverseOption f as = some rest ∧ bs = b :: rest := by
  unfold traverseOption at h
  cases hfa : f a with
  | none => rw [hfa] at h; exact absurd h (by simp)
  | some b =>
      rw [hfa] at h
      cases hrest : traverseOption f as with
      | none => rw [hrest] at h; exact absurd h (by simp)
      | some rest =>
          rw [hrest] at h
          refine ⟨b, rest, rfl, rfl, ?_⟩
          simpa using h.symm

/-- On a value readable as a `SerializableFile`, the dynamic element decode
of the source's junk path agrees with the typed decode. -/
theorem decodeDynFile_readable (f : Json) (sf : SerializableFile) (now : Int)
    (h : readSerializableFile f = some sf) :
    decodeDynFile f now = base64ToFile sf.data sf.name sf.type now := by
  unfold readSerializableFile at h
  simp only [bind, Option.bind_eq_some, Option.some.injEq] at h
  obtain ⟨n, hn, t, ht, lm, hlm, d, hd, hsf⟩ := h
  obtain ⟨vn, hvn, hvn2⟩ := readField_eq_some hn
  obtain ⟨vt, hvt, hvt2⟩ := readField_eq_some ht
  obtain ⟨vd, hvd, hvd2⟩ := readField_eq_some hd
  rw [readString_eq_some hvn2] at hvn
  rw [readString_eq_some hvt2] at hvt
  rw [readString_eq_some hvd2] at hvd
  subst hsf
  cases f with
  | obj fields =>
      unfold decodeDynFile
      rw [hvn, hvt, hvd]
      rfl
  | null => exact absurd hvn (by simp [jsGet])
  | bool b => exact absurd hvn (by simp [jsGet])
  | num m => exact absurd hvn (by simp [jsGet])
  | str u => exact absurd hvn (by simp [jsGet])
  | arr xs => exact absurd hvn (by simp [jsGet])

/-- List-level agreement of the dynamic and typed script-file decodes on
readable elements. -/
theorem traverseOption_dyn_readable (xs : List Json) (sfs : List SerializableFile)
    (now : Int) (h : traverseOption readSerializableFile xs = some sfs) :
    traverseOption (fun f => decodeDynFile f now) xs
      = traverseOption (fun sf => base64ToFile sf.data sf.name sf.type now) sfs := by
  induction xs generalizing sfs with
  | nil =>
      simp only [traverseOption, Option.some.injEq] at h
      rw [← h]
      rfl
  | cons x xs ih =>
      obtain ⟨sf, rest, hx, hrest, hbs⟩ := traverseOption_cons_inv h
      subst hbs
      simp only [traverseOption]
      rw [decodeDynFile_readable x sf now hx, ih rest hrest]

/-- On a candidate readable as a `SavedSession`, the dynamic reconstruction
run by the source agrees step-for-step with the typed
`restoreSessionState` decode, for the script files and for the practice
file: the branch split of `handleImportSession` is sound. -/
theorem dyn_decode_agrees_on_readable (j : Json) (sd : SavedSession) (now : Int)
    (h : readSavedSession j = some sd) :
    decodeDynScriptFiles (jsGet j "scriptFiles") now
        = decodeScriptFiles sd.scriptFiles now
    ∧ decodeDynPracticeFile (jsGet j "practiceFile") now
        = decodePracticeFile sd.practiceFile now := by
  unfold readSavedSession at h
  simp only [bind, Option.bind_eq_some, Option.some.injEq] at h
  obtain ⟨st, hst, sf, hsf, pf, hpf, gc, hgc, osi, hosi, usc, husc, dl, hdl,
    mn, hmn, sa, hsa, hsd⟩ := h
  subst hsd
  constructor
  · obtain ⟨v, hv, hv2⟩ := readField_eq_some hsf
    cases v with
    | arr xs =>
        simp only [readArr] at hv2
        rw [hv]
        show traverseOption (fun f => decodeDynFile f now) xs = _
        rw [traverseOption_dyn_readable xs sf now hv2]
        rfl
    | null => simp [readArr] at hv2
    | bool b => simp [readArr] at hv2
    | num n => simp [readArr] at hv2
    | str t => simp [readArr] at hv2
    | obj fs => simp [readArr] at hv2
  · cases hv : jsGet j "practiceFile" with
    | none =>
        simp only [readOptField, hv, Option.some.injEq] at hpf
        rw [← hpf]
        rfl
    | some v =>
        cases v with
        | null =>
            simp only [readOptField, hv, Option.some.injEq] at hpf
            rw [← hpf]
            rfl
        | obj fields =>
            simp only [readOptField, hv] at hpf
            cases hrd : readSerializableFile (Json.obj fields) with
            | none => rw [hrd] at hpf; simp at hpf
            | some sfile =>
                rw [hrd] at hpf
                have hpf2 : pf = some sfile := by simpa using hpf.symm
                rw [hpf2]
                show (decodeDynFile (Json.obj fields) now).map some = _
                rw [decodeDynFile_readable (Json.obj fields) sfile now hrd]
                rfl
        | bool b =>
            simp only [readOptField, hv] at hpf
            simp [readSerializableFile, readField, jsGet, bind] at hpf
        | num n =>
            simp only [readOptField, hv] at hpf
            simp [readSerializableFile, readField, jsGet, bind] at hpf
        | str t =>
            simp only [readOptField, hv] at hpf
            simp [readSerializableFile, readField, jsGet, bind] at hpf
        | arr xs =>
            simp only [readOptField, hv] at hpf
            simp [readSerializableFile, readField, jsGet, bind] at hpf

/-- Helper: import of an unparseable file sets the import warning and
changes nothing else. -/
theorem handleImportSession_parse_failure (w : AppWorld) (now : Int) :
    handleImportSession w "application/json" none now
      = .world { w with app := { w.app with notification := some badSessionWarning } } := by
  unfold handleImportSession
  rw [if_neg (by simp)]

/-- Helper: import of a parsed candidate failing the validation check sets
the import warning and changes nothing else. -/
theorem handleImportSession_check_false (w : AppWorld) (j : Json) (now : Int)
    (hnull : j ≠ Json.null) (hcheck : importCheck j = false) :
    handleImportSession w "application/json" (some j) now
      = .world { w with app := { w.app with notification := some badSessionWarning } } := by
  unfold handleImportSession
  rw [if_neg (by simp)]
  cases j with
  | null => exact absurd rfl hnull
  | bool b => dsimp only; rw [if_neg (by rw [hcheck]; exact Bool.false_ne_true)]
  | num n => dsimp only; rw [if_neg (by rw [hcheck]; exact Bool.false_ne_true)]
  | str t => dsimp only; rw [if_neg (by rw [hcheck]; exact Bool.false_ne_true)]
  | arr xs => dsimp only; rw [if_neg (by rw [hcheck]; exact Bool.false_ne_true)]
  | obj fields => dsimp only; rw [if_neg (by rw [hcheck]; exact Bool.false_ne_true)]

/-- Helper: import of a candidate that passes the check, inhabits the
`SavedSession` interface and reconstructs successfully goes through the
typed `restoreSessionState` and sets the success notification. -/
theorem handleImportSession_success (w : AppWorld) (j : Json) (sd : SavedSession)
    (now : Int) (hcheck : importCheck j = true)
    (hread : readSavedSession j = some sd)
    (hok : (restoreSessionState w sd now).2 = true) :
    handleImportSession w "application/json" (some j) now
      = .world { (restoreSessionState w sd now).1 with
            app := { (restoreSessionState w sd now).1.app with
                       notification := some importSuccess } } := by
  unfold handleImportSession
  rw [if_neg (by simp)]
  have hnull : j ≠ Json.null := by
    intro hj
    rw [hj] at hcheck
    exact Bool.false_ne_true hcheck
  cases j with
  | null => exact absurd rfl hnull
  | bool b =>
      dsimp only
      rw [if_pos hcheck, hread]
      dsimp only
      rw [if_pos hok]
  | num n =>
      dsimp only
      rw [if_pos hcheck, hread]
      dsimp only
      rw [if_pos hok]
  | str t =>
      dsimp only
      rw [if_pos hcheck, hread]
      dsimp only
      rw [if_pos hok]
  | arr xs =>
      dsimp only
      rw [if_pos hcheck, hread]
      dsimp only
      rw [if_pos hok]
  | obj fields =>
      dsimp only
      rw [if_pos hcheck, hread]
      dsimp only
      rw [if_pos hok]

/-- Helper: a check-passing candidate outside the `SavedSession` interface
whose dynamic reconstruction throws lands in `restoreSessionState`'s
`catch`: restore warning, stored key cleared, fresh default session — and
no import error. -/
theorem handleImportSession_dyn_fallback (w : AppWorld) (j : Json) (now : Int)
    (hcheck : importCheck j = true) (hread : readSavedSession j = none)
    (hthrow : decodeDynScriptFiles (jsGet j "scriptFiles") now = none
        ∨ decodeDynPracticeFile (jsGet j "practiceFile") now = none) :
    handleImportSession w "application/json" (some j) now
      = .world (handleStartNewSession
          { w with app := { w.app with notification := some restoreWarning } }) := by
  unfold handleImportSession
  rw [if_neg (by simp)]
  have hnull : j ≠ Json.null := by
    intro hj
    rw [hj] at hcheck
    exact Bool.false_ne_true hcheck
  have hbranch : ∀ jnn : Json,
      importCheck jnn = true → readSavedSession jnn = none →
      decodeDynScriptFiles (jsGet jnn "scriptFiles") now = none
          ∨ decodeDynPracticeFile (jsGet jnn "practiceFile") now = none →
      (if importCheck jnn then
        match readSavedSession jnn with
        | some sessionData =>
            let r := restoreSessionState w sessionData now
            if r.2 then
              ImportResult.world
                { r.1 with app := { r.1.app with notification := some importSuccess } }
            else ImportResult.world r.1
        | none =>
            match decodeDynScriptFiles (jsGet jnn "scriptFiles") now,
                  decodeDynPracticeFile (jsGet jnn "practiceFile") now with
            | some files, some pf =>
                ImportResult.untypedAdoption
                  { w with app := { w.app with
                      scriptFiles := files
                      practiceFile := pf
                      notification := some importSuccess } } jnn
            | _, _ =>
                ImportResult.world (handleStartNewSession
                  { w with app := { w.app with notification := some restoreWarning } })
       else
        ImportResult.world
          { w with app := { w.app with notification := some badSessionWarning } })
      = .world (handleStartNewSession
          { w with app := { w.app with notification := some restoreWarning } }) := by
    intro jnn hc hr ht
    rw [if_pos hc, hr]
    rcases ht with ht | ht
    · rw [ht]
    · cases hds : decodeDynScriptFiles (jsGet jnn "scriptFiles") now with
      | none => rfl
      | some files => rw [ht]
  cases j with
  | null => exact absurd rfl hnull
  | bool b => exact hbranch _ hcheck hread hthrow
  | num n => exact hbranch _ hcheck hread hthrow
  | str t => exact hbranch _ hcheck hread hthrow
  | arr xs => exact hbranch _ hcheck hread hthrow
  | obj fields => exact hbranch _ hcheck hread hthrow

/-- Helper: a check-passing candidate outside the `SavedSession` interface
whose dynamic reconstruction runs to completion is adopted: live documents
replaced by the dynamically decoded ones, success notification emitted, and
the candidate's untyped property values written into the remaining hooks
(the `untypedAdoption` outcome). -/
theorem handleImportSession_dyn_adoption (w : AppWorld) (j : Json) (now : Int)
    (files : List JsFile) (pf : Option JsFile)
    (hcheck : importCheck j = true) (hread : readSavedSession j = none)
    (hfiles : decodeDynScriptFiles (jsGet j "scriptFiles") now = some files)
    (hpf : decodeDynPracticeFile (jsGet j "practiceFile") now = some pf) :
    handleImportSession w "application/json" (some j) now
      = .untypedAdoption
          { w with app := { w.app with
              scriptFiles := files
              practiceFile := pf
              notification := some importSuccess } } j := by
  unfold handleImportSession
  rw [if_neg (by simp)]
  have hnull : j ≠ Json.null := by
    intro hj
    rw [hj] at hcheck
    exact Bool.false_ne_true hcheck
  cases j with
  | null => exact absurd rfl hnull
  | bool b =>
      dsimp only
      rw [if_pos hcheck, hread, hfiles, hpf]
  | num n =>
      dsimp only
      rw [if_pos hcheck, hread, hfiles, hpf]
  | str t =>
      dsimp only
      rw [if_pos hcheck, hread, hfiles, hpf]
  | arr xs =>
      dsimp only
      rw [if_pos hcheck, hread, hfiles, hpf]
  | obj fields =>
      dsimp only
      rw [if_pos hcheck, hread, hfiles, hpf]

/-- C5 (as amended): an import of a non-JSON file type or unparseable
content, or of a parsed candidate failing the import's truthy check, fails
with the import warning and leaves all other state unchanged.  A
check-passing candidate is handed to the same reconstruction path as
resume: one inhabiting the `SavedSession` interface whose payloads decode
is adopted with the success notification; one whose reconstruction throws
gets the restore warning and the live state is replaced by a fresh default
session; and one outside the interface whose reconstruction completes is
adopted as-is — untyped property values included — with the success
notification. -/
theorem import_error_handling (w : AppWorld) (j : Json) (sd : SavedSession)
    (now : Int) (files : List JsFile) (pf : Option JsFile) :
    (handleImportSession w "application/json" none now
        = .world { w with app := { w.app with notification := some badSessionWarning } })
    ∧ (j ≠ Json.null → importCheck j = false →
        handleImportSession w "application/json" (some j) now
          = .world { w with app := { w.app with notification := some badSessionWarning } })
    ∧ (importCheck j = true → readSavedSession j = some sd →
        (restoreSessionState w sd now).2 = true →
        handleImportSession w "application/json" (some j) now
          = .world { (restoreSessionState w sd now).1 with
                app := { (restoreSessionState w sd now).1.app with
                           notification := some importSuccess } })
    ∧ (importCheck j = true → readSavedSession j = none →
        (decodeDynScriptFiles (jsGet j "scriptFiles") now = none
          ∨ decodeDynPracticeFile (jsGet j "practiceFile") now = none) →
        handleImportSession w "application/json" (some j) now
          = .world (handleStartNewSession
              { w with app := { w.app with notification := some restoreWarning } }))
    ∧ (importCheck j = true → readSavedSession j = none →
        decodeDynScriptFiles (jsGet j "scriptFiles") now = some files →
        decodeDynPracticeFile (jsGet j "practiceFile") now = some pf →
        handleImportSession w "application/json" (some j) now
          = .untypedAdoption
              { w with app := { w.app with
                  scriptFiles := files
                  practiceFile := pf
                  notification := some importSuccess } } j) :=
  ⟨handleImportSession_parse_failure w now,
   handleImportSession_check_false w j now,
   handleImportSession_success w j sd now,
   handleImportSession_dyn_fallback w j now,
   handleImportSession_dyn_adoption w j now files pf⟩

/-- A complete, well-typed JSON session candidate used by witnesses. -/
def importJson : Json :=
  .obj [("appState", .str "resultsDashboard"), ("scriptFiles", .arr []),
        ("practiceFile", .null), ("generatedContent", .obj []),
        ("openStepIndex", .null), ("useStrictContext", .bool true),
        ("detailLevel", .str "standard"), ("model", .str "gemini-2.5-flash"),
        ("selectedScriptAction", .str "guide")]

/-- The `SavedSession` denoted by `importJson`. -/
def importSession : SavedSession :=
  { appState := .resultsDashboard
    scriptFiles := []
    practiceFile := none
    generatedContent := {}
    openStepIndex := none
    useStrictContext := true
    detailLevel := .standard
    model := .gemini25flash
    selectedScriptAction := .guide }

/-- The structural validation the spec claims (stated from the spec's
words, for comparison with the source's `importCheck`): a recognized
screen-state enumeration value and a script-document sequence. -/
def specIsValidSnapshot (j : Json) : Bool :=
  (match jsGet j "appState" with
   | some (Json.str s) => (appStateOfString s).isSome
   | _ => false)
  && (match jsGet j "scriptFiles" with
      | some (Json.arr _) => true
      | _ => false)

/-- A candidate whose `appState` is an unrecognized string and whose
`scriptFiles` is a number, not a sequence. -/
def bogusCandidate : Json :=
  .obj [("appState", .str "bogus"), ("scriptFiles", .num 5)]

/-- A candidate whose `appState` is an unrecognized string but whose
`scriptFiles` is the empty array, so the dynamic reconstruction completes. -/
def bogusAdoptable : Json :=
  .obj [("appState", .str "bogus"), ("scriptFiles", .arr [])]

/-- Counterexample to C5: two imported files whose contents are valid JSON
but fail structural validation (unrecognized screen state; script-document
field a number resp. properties missing from the interface).  The claim
demands a user-visible import error with all in-memory state unchanged.
Instead, the source: (a) on `bogusCandidate`, throws inside reconstruction
and replaces the live state with a fresh default session — documents
cleared, stored key cleared, restore warning instead of the import error;
(b) on `bogusAdoptable`, adopts the candidate wholesale — live documents
replaced, success notification emitted. -/
theorem import_structural_validation_cex :
    specIsValidSnapshot bogusCandidate = false
    ∧ handleImportSession ⟨dashModel, some "blob"⟩ "application/json"
          (some bogusCandidate) 0
        = .world (handleStartNewSession
            ⟨{ dashModel with notification := some restoreWarning }, some "blob"⟩)
    ∧ (handleStartNewSession
          ⟨{ dashModel with notification := some restoreWarning }, some "blob"⟩).app.scriptFiles
        = []
    ∧ (handleStartNewSession
          ⟨{ dashModel with notification := some restoreWarning }, some "blob"⟩).stored
        = none
    ∧ dashModel.scriptFiles ≠ []
    ∧ specIsValidSnapshot bogusAdoptable = false
    ∧ handleImportSession ⟨dashModel, some "blob"⟩ "application/json"
          (some bogusAdoptable) 0
        = .untypedAdoption
            ⟨{ dashModel with
                 scriptFiles := []
                 practiceFile := none
                 notification := some importSuccess }, some "blob"⟩
            bogusAdoptable := by
  refine ⟨rfl, rfl, rfl, rfl, by decide, rfl, rfl⟩

/-- Witness for the amended C5, exercising all five branches at concrete
inputs. -/
theorem import_error_handling_witness :
    (handleImportSession ⟨dashModel, some "blob"⟩ "application/json" none 0
        = .world ⟨{ dashModel with notification := some badSessionWarning }, some "blob"⟩)
    ∧ (handleImportSession ⟨dashModel, some "blob"⟩ "application/json"
          (some (Json.obj [("scriptFiles", Json.arr [])])) 0
        = .world ⟨{ dashModel with notification := some badSessionWarning }, some "blob"⟩)
    ∧ (handleImportSession ⟨dashModel, some "blob"⟩ "application/json"
          (some importJson) 0
        = .world { (restoreSessionState ⟨dashModel, some "blob"⟩ importSession 0).1 with
              app := { (restoreSessionState ⟨dashModel, some "blob"⟩ importSession 0).1.app with
                         notification := some importSuccess } })
    ∧ (handleImportSession ⟨dashModel, some "blob"⟩ "application/json"
          (some bogusCandidate) 0
        = .world (handleStartNewSession
            ⟨{ dashModel with notification := some restoreWarning }, some "blob"⟩))
    ∧ (handleImportSession ⟨dashModel, some "blob"⟩ "application/json"
          (some bogusAdoptable) 0
        = .untypedAdoption
            ⟨{ dashModel with
                 scriptFiles := []
                 practiceFile := none
                 notification := some importSuccess }, some "blob"⟩
            bogusAdoptable) :=
  have h1 := import_error_handling ⟨dashModel, some "blob"⟩
      (Json.obj [("scriptFiles", Json.arr [])]) importSession 0 [] none
  have h2 := import_error_handling ⟨dashModel, some "blob"⟩ importJson importSession 0 [] none
  have h3 := import_error_handling ⟨dashModel, some "blob"⟩ bogusCandidate importSession 0 [] none
  have h4 := import_error_handling ⟨dashModel, some "blob"⟩ bogusAdoptable importSession 0 [] none
  ⟨h1.1,
   h1.2.1 (by simp) (by decide),
   h2.2.2.1 (by decide) (by decide) rfl,
   h3.2.2.2.1 (by decide) (by decide) (Or.inl rfl),
   h4.2.2.2.2 (by decide) (by decide) rfl rfl⟩

/-- Counterexample to C6: the source's validation check accepts
`bogusCandidate` although its screen state is not a recognized enumeration
value and its script-document field is not a sequence (it is not even a
readable `SavedSession`); the check is mere JS truthiness of the two
fields. -/
theorem snapshot_validation_cex :
    importCheck bogusCandidate = true
    ∧ specIsValidSnapshot bogusCandidate = false
    ∧ readSavedSession bogusCandidate = none := by
  refine ⟨rfl, rfl, rfl⟩

/-- C6 as amended: the validation check before adopting an imported
candidate only requires the `appState` and `scriptFiles` fields to be
JS-truthy — it enforces neither membership of the screen state in the
enumeration nor that the script-document field is a sequence; a candidate
failing this (weaker) check is still rejected entirely, with no partial
adoption: the import leaves everything except the warning notification
unchanged. -/
theorem snapshot_validation_amended (w : AppWorld) (j : Json) (now : Int) :
    importCheck j = (jsTruthy (jsGet j "appState") && jsTruthy (jsGet j "scriptFiles"))
    ∧ (j ≠ Json.null → importCheck j = false →
        handleImportSession w "application/json" (some j) now
          = .world { w with app := { w.app with notification := some badSessionWarning } }) := by
  refine ⟨rfl, ?_⟩
  intro hnull hcheck
  exact handleImportSession_check_false w j now hnull hcheck

/-- Witness for the amended C6: the truthy-fields equivalence at
`bogusCandidate`, and full rejection of the empty-object candidate. -/
theorem snapshot_validation_amended_witness :
    (importCheck bogusCandidate
        = (jsTruthy (jsGet bogusCandidate "appState")
            && jsTruthy (jsGet bogusCandidate "scriptFiles")))
    ∧ handleImportSession ⟨dashModel, some "blob"⟩ "application/json"
          (some (Json.obj [])) 0
        = .world ⟨{ dashModel with notification := some badSessionWarning }, some "blob"⟩ :=
  ⟨(snapshot_validation_amended ⟨dashModel, some "blob"⟩ bogusCandidate 0).1,
   (snapshot_validation_amended ⟨dashModel, some "blob"⟩ (Json.obj []) 0).2
     (by simp) rfl⟩
